import Mathlib

/-!
Verification development for the card-live-dashboard data pipeline.

The definitions below are a shallow embedding of the Python sources:
  * `card_live_dashboard/service/CardLiveDataLoader.py`
  * `card_live_dashboard/model/CardLiveData.py`
  * `card_live_dashboard/model/data_modifiers/AddTaxonomyModifier.py`

Pandas dataframes are modelled as lists of typed rows indexed by the
`filename` key; Python `Set[str]` values are modelled as `Finset String`;
`df.loc[keys]` (narrowing a table to a collection of index keys) is
modelled as a key-membership filter on the row list (row order is
abstracted); timestamps are modelled as integers (`Int`), ordered the
same way `pd.Timestamp` values are; exceptions are modelled with
`Except String`.
-/

namespace CardLive

/-- One row of the main (sample-record) table of `CardLiveData`.
In `CardLiveData.__init__` the table is re-indexed by `filename`,
`geo_area_code` is coerced to int64 (modelled as `Int`) and `timestamp`
is parsed to a datetime (modelled as `Int`). -/
structure MainRow where
  filename : String
  timestamp : Int
  geo_area_code : Int
deriving DecidableEq, Repr

/-- One row of the RGI (primary resistance-call) table.  The fields
beyond the `filename` key are those the Resistance-Call Index filters on
(`rgi_main.cut_off`, `rgi_main.drug_class` list, `rgi_main.best_hit_aro`). -/
structure RgiRow where
  filename : String
  cutoff : String
  drug_class : List String
  best_hit_aro : String
deriving DecidableEq, Repr

/-- One row of an auxiliary per-category table (`rgi_kmer_df`, `lmat_df`
or `mlst_df`): the `filename` key plus a representative data value. -/
structure KRow where
  filename : String
  label : String
deriving DecidableEq, Repr

/-- The set of distinct `filename` index keys of a table. -/
def keySet (key : α → String) (rows : List α) : Finset String :=
  (rows.map key).toFinset

/-- Embedding of pandas `df.loc[keys]`: keep the rows whose index key is
in the given key set (row order abstracted). -/
def locKey (key : α → String) (s : Finset String) (rows : List α) : List α :=
  rows.filter (fun r => decide (key r ∈ s))

theorem mem_keySet {key : α → String} {rows : List α} {x : String} :
    x ∈ keySet key rows ↔ ∃ r ∈ rows, key r = x := by
  simp [keySet, List.mem_toFinset, List.mem_map]

theorem mem_locKey {key : α → String} {s : Finset String} {rows : List α} {r : α} :
    r ∈ locKey key s rows ↔ r ∈ rows ∧ key r ∈ s := by
  simp [locKey, List.mem_filter]

theorem keySet_locKey (key : α → String) (s : Finset String) (rows : List α) :
    keySet key (locKey key s rows) = keySet key rows ∩ s := by
  ext x
  simp only [mem_keySet, Finset.mem_inter]
  constructor
  · rintro ⟨r, hr, rfl⟩
    rw [mem_locKey] at hr
    exact ⟨⟨r, hr.1, rfl⟩, hr.2⟩
  · rintro ⟨⟨r, hr, rfl⟩, hx⟩
    exact ⟨r, mem_locKey.mpr ⟨hr, hx⟩, rfl⟩

theorem locKey_eq_self {key : α → String} {s : Finset String} {rows : List α}
    (h : keySet key rows ⊆ s) : locKey key s rows = rows := by
  induction rows with
  | nil => rfl
  | cons a l ih =>
      have ha : key a ∈ s := h (mem_keySet.mpr ⟨a, List.mem_cons_self a l, rfl⟩)
      have hl : keySet key l ⊆ s := by
        intro x hx
        rcases mem_keySet.mp hx with ⟨r, hr, rfl⟩
        exact h (mem_keySet.mpr ⟨r, List.mem_cons_of_mem a hr, rfl⟩)
      simp [locKey, ha, ih hl, List.filter_cons]
      intro b hb
      exact hl (mem_keySet.mpr ⟨b, hb, rfl⟩)

theorem keySet_filter_subset (key : α → String) (f : α → Bool) (rows : List α) :
    keySet key (rows.filter f) ⊆ keySet key rows := by
  intro x hx
  rcases mem_keySet.mp hx with ⟨r, hr, rfl⟩
  exact mem_keySet.mpr ⟨r, (List.mem_filter.mp hr).1, rfl⟩

/-- Modelled from the spec: `RGIParser`
(`card_live_dashboard/model/RGIParser.py`) is not under `src/`; only its
callers are.  Per spec section 4.2 it "wraps the primary resistance-call
table" (`df_rgi`). -/
structure RGIParser where
  df_rgi : List RgiRow
deriving DecidableEq, Repr

/-- Modelled from the spec: `RGIParser.files()` "returns the set of
distinct sample keys still present after filtering". -/
def RGIParser.files (p : RGIParser) : Finset String :=
  keySet RgiRow.filename p.df_rgi

/-- Modelled from the spec: `RGIParser.select_by_files` narrows the
wrapped resistance table to rows whose sample key is in the given set
(used by `CardLiveData.select_by_files`, which "rebuild[s] the
Resistance-Call Index over the narrowed resistance table"). -/
def RGIParser.select_by_files (p : RGIParser) (files : Finset String) : RGIParser :=
  ⟨locKey RgiRow.filename files p.df_rgi⟩

/-- Modelled from the spec: `RGIParser.select(by, **criteria)` supports
select-by-cutoff (equality against an accepted value set, pass-through
when "all" is requested), select-by-drug-class (list membership) and
select-by-best-hit-aro (equality against a requested set); an unknown
`by` value "fails with an UnsupportedSelector condition".  The keyword
criteria are modelled as one `values` list. -/
def RGIParser.select (p : RGIParser) (b : String) (values : List String) :
    Except String RGIParser :=
  if b = "cutoff" then
    if values.contains "all" then Except.ok p
    else Except.ok ⟨p.df_rgi.filter (fun r => values.contains r.cutoff)⟩
  else if b = "drug_class" then
    Except.ok ⟨p.df_rgi.filter (fun r => r.drug_class.any (fun c => values.contains c))⟩
  else if b = "besthit_aro" then
    Except.ok ⟨p.df_rgi.filter (fun r => values.contains r.best_hit_aro)⟩
  else
    Except.error ("Unsupported selector [by=" ++ b ++ "]")

/-- The `CardLiveData` aggregate
(`card_live_dashboard/model/CardLiveData.py`): the main sample-record
table, the Resistance-Call Index wrapping the RGI table, and the three
auxiliary per-category tables. -/
structure CardLiveData where
  main_df : List MainRow
  rgi_index : RGIParser
  rgi_kmer_df : List KRow
  lmat_df : List KRow
  mlst_df : List KRow
deriving DecidableEq, Repr

/-- `CardLiveData.rgi_df` property: the table wrapped by the parser. -/
def CardLiveData.rgi_df (d : CardLiveData) : List RgiRow :=
  d.rgi_index.df_rgi

/-- `CardLiveData.files`: `set(self.main_df.index.tolist())`. -/
def CardLiveData.files (d : CardLiveData) : Finset String :=
  keySet MainRow.filename d.main_df

/-- `CardLiveData.samples_count`: `len(self._main_df)`. -/
def CardLiveData.samples_count (d : CardLiveData) : Nat :=
  d.main_df.length

/-- `CardLiveData.replace_antarctica_with_na` (lines 22-47): in a copy of
the main table, rows with `geo_area_code == 10` and
`timestamp < date_threshold` get `geo_area_code = -10`; the four other
tables are copied unchanged and a new `CardLiveData` is returned. -/
def CardLiveData.replace_antarctica_with_na (d : CardLiveData) (date_threshold : Int) :
    CardLiveData :=
  ⟨d.main_df.map (fun r =>
      if r.geo_area_code = 10 ∧ r.timestamp < date_threshold then
        ⟨r.filename, r.timestamp, -10⟩
      else r),
   ⟨d.rgi_df⟩, d.rgi_kmer_df, d.lmat_df, d.mlst_df⟩

/-- `CardLiveData.select_from_rgi_index` (lines 81-99): takes
`files = rgi_index.files()` and narrows the main table and the three
auxiliary tables to those keys via `.loc[files]`; the passed parser
becomes the new Resistance-Call Index. -/
def CardLiveData.select_from_rgi_index (d : CardLiveData) (p : RGIParser) : CardLiveData :=
  ⟨locKey MainRow.filename p.files d.main_df,
   p,
   locKey KRow.filename p.files d.rgi_kmer_df,
   locKey KRow.filename p.files d.lmat_df,
   locKey KRow.filename p.files d.mlst_df⟩

/-- `CardLiveData.select_by_files` (lines 101-108): narrows the parser to
the given file set then selects from it. -/
def CardLiveData.select_by_files (d : CardLiveData) (files : Finset String) : CardLiveData :=
  d.select_from_rgi_index (d.rgi_index.select_by_files files)

/-- `CardLiveData.select_by_time` (lines 69-79): collects the keys of
main-table rows with `start <= timestamp <= end` (inclusive bounds) and
delegates to `select_by_files`. -/
def CardLiveData.select_by_time (d : CardLiveData) (tstart tend : Int) : CardLiveData :=
  d.select_by_files
    (keySet MainRow.filename
      (d.main_df.filter (fun r => decide (tstart ≤ r.timestamp ∧ r.timestamp ≤ tend))))

/-- `CardLiveData.select` (lines 49-67): dispatch on `(table, by)`.
`(main, time)` selects by time; `(main, _)` raises
`Unknown value[by=...]`; `(rgi, _)` delegates to `RGIParser.select` and
then narrows every table; any other table raises
`Unknown value [table=...]`.  The Python `**kwargs` are modelled as the
explicit `tstart`/`tend`/`values` payloads the two branches consume. -/
def CardLiveData.select (d : CardLiveData) (table b : String)
    (tstart tend : Int) (values : List String) : Except String CardLiveData :=
  if table = "main" then
    if b = "time" then Except.ok (d.select_by_time tstart tend)
    else Except.error ("Unknown value[by=" ++ b ++ "]")
  else if table = "rgi" then
    (d.rgi_index.select b values).map (fun p => d.select_from_rgi_index p)
  else
    Except.error ("Unknown value [table=" ++ table ++ "].")

/-- The cross-table key-set invariant of spec section 3: the main table
and all four per-category tables reference exactly the same sample-key
set.  Loader-produced datasets satisfy it because `_expand_column`
left-joins every expanded per-category table back onto the full table,
keeping one (possibly all-null) row group per sample. -/
def CardLiveData.WellFormed (d : CardLiveData) : Prop :=
  d.rgi_index.files = d.files ∧
  keySet KRow.filename d.rgi_kmer_df = d.files ∧
  keySet KRow.filename d.lmat_df = d.files ∧
  keySet KRow.filename d.mlst_df = d.files

instance (d : CardLiveData) : Decidable d.WellFormed :=
  inferInstanceAs (Decidable (d.rgi_index.files = d.files ∧
    keySet KRow.filename d.rgi_kmer_df = d.files ∧
    keySet KRow.filename d.lmat_df = d.files ∧
    keySet KRow.filename d.mlst_df = d.files))

/-! ### Dataset Refresher (`CardLiveDataLoader.update_data`, lines 27-44)

Two Python-level facts are decisive here and are embedded explicitly:

* `Path(self._directory).glob('*')` is a single-pass generator: it
  holds the not-yet-yielded items, and exhausting it (as
  `set(input_files)` does) leaves it empty for later iteration.
* `glob` yields `pathlib.Path` objects (directory prefix plus base
  name), while `existing_data.files()` holds basename *strings*
  (`read_data` indexes by `path.basename(input_file)`).
  `PurePath.__eq__` returns `NotImplemented` on a non-path operand and
  `str.__eq__` likewise, so a `Path` and a `str` never compare equal in
  a set operation.  Values in the refresher's sets are therefore a sum
  type whose two constructors never coincide. -/

/-- A Python value in the refresher's set computations: a
`pathlib.Path` (directory prefix plus base name, as yielded by
`Path(dir).glob('*')`) or a `str` (a basename from
`existing_data.files()`).  Distinct constructors are unequal, exactly
as a `Path` never equals a `str` in Python. -/
inductive PyVal where
  | path : String → String → PyVal
  | str : String → PyVal
deriving DecidableEq, Repr

/-- A Python generator over glob results: the items not yet yielded. -/
structure GlobGen where
  remaining : List PyVal
deriving DecidableEq, Repr

/-- Exhausting a generator (e.g. by `set(...)` or a `for` loop): yields
every remaining item and leaves the generator empty. -/
def GlobGen.consume (g : GlobGen) : List PyVal × GlobGen :=
  (g.remaining, ⟨[]⟩)

/-- The list of files actually read by `read_data(input_files)`
(lines 46-58): the `for input_file in input_files` loop exhausts the
iterator it is given. -/
def read_data_files (g : GlobGen) : List PyVal :=
  g.consume.1

/-- Outcome of `update_data`: either the existing data object is
returned unchanged, or `read_data` is invoked and reads the given
files. -/
inductive UpdateResult where
  | unchanged : UpdateResult
  | reloaded : List PyVal → UpdateResult
deriving DecidableEq, Repr

/-- The existing-data case of `update_data` (lines 37-44): compute
`set(input_files)` (consuming the generator), test
`len(set(input_files).intersection(existing_files)) == 0`, return the
existing object on zero and otherwise call `read_data(input_files)` on
the already-consumed generator.  Stated over an arbitrary generator and
an arbitrary Python set; in the composed `update_data` below the set is
`existing_data.files()`, a set of basename strings. -/
def update_data_with_existing (input_files : GlobGen) (existing_files : Finset PyVal) :
    UpdateResult :=
  let consumed := input_files.consume
  if (consumed.1.toFinset ∩ existing_files).card = 0 then
    UpdateResult.unchanged
  else
    UpdateResult.reloaded (read_data_files consumed.2)

/-- `CardLiveDataLoader.update_data` (lines 27-44), at the granularity
of which files are read.  `glob('*')` yields the `Path` objects
`dir/name` for the directory entries `names`; `existingFiles` is
`existing_data.files()` (basename strings) when an existing data object
is passed. -/
def update_data (dir : String) (names : List String)
    (existingFiles : Option (Finset String)) : UpdateResult :=
  let input_files : GlobGen := ⟨names.map (PyVal.path dir)⟩
  match existingFiles with
  | none => UpdateResult.reloaded (read_data_files input_files)
  | some existing => update_data_with_existing input_files (existing.image PyVal.str)

/-! ### Record Loader analysis-valid derivation
(`CardLiveDataLoader._create_analysis_valid_column`, lines 92-99)

At this point in `read_data` the full dataframe is indexed by
`filename`, each of the four category cells is either non-null data or
null (`_replace_empty_list_na` has turned empty lists into null), and
all other columns (e.g. `timestamp`, still an unparsed string here) hold
scalar values.  A row is embedded as the four per-category non-null
flags plus one representative other-column string value. -/

/-- `CardLiveDataLoader.JSON_DATA_FIELDS`. -/
def JSON_DATA_FIELDS : List String := ["rgi_main", "rgi_kmer", "mlst", "lmat"]

/-- A row of the full dataframe as seen by
`_create_analysis_valid_column`: for each category, whether the cell is
non-null (i.e. the category key was present in the JSON with a
non-empty hit list), plus the value of one other scalar column. -/
structure FullRow where
  filename : String
  rgi_main_data : Bool
  rgi_kmer_data : Bool
  mlst_data : Bool
  lmat_data : Bool
  other : String
deriving DecidableEq, Repr

/-- `~df[col].isna()` for each of the four category columns. -/
def colPresent (r : FullRow) : String → Bool
  | "rgi_main" => r.rgi_main_data
  | "rgi_kmer" => r.rgi_kmer_data
  | "mlst" => r.mlst_data
  | "lmat" => r.lmat_data
  | _ => false

/-- The loop of `_create_analysis_valid_column` (lines 94-98): start at
'None'; for each `col` of `JSON_DATA_FIELDS` in order, rows with a
non-null cell and a current value other than 'None' get
`current + ' and ' + col`, and rows with a non-null cell and current
value 'None' get `col`. -/
def analysisValidLoop (r : FullRow) : String :=
  JSON_DATA_FIELDS.foldl
    (fun acc col =>
      if colPresent r col then
        (if acc = "None" then col else acc ++ " and " ++ col)
      else acc)
    "None"

/-- `' and '.join(self.JSON_DATA_FIELDS)`. -/
def allFieldsJoined : String := String.intercalate " and " JSON_DATA_FIELDS

/-- One cell under `df.replace(' and '.join(self.JSON_DATA_FIELDS), 'all')`
(line 99): `DataFrame.replace` rewrites every matching cell value of
every column of the dataframe. -/
def replaceAllCell (s : String) : String :=
  if s = allFieldsJoined then "all" else s

/-- A row of the output of `_create_analysis_valid_column`: the derived
`analysis_valid` cell and the other scalar column, both after the final
whole-dataframe `replace`.  The `filename` index is not a column, so
`replace` does not touch it. -/
structure AnalysisOutRow where
  filename : String
  analysis_valid : String
  other : String
deriving DecidableEq, Repr

/-- `_create_analysis_valid_column` on one row. -/
def create_analysis_valid_row (r : FullRow) : AnalysisOutRow :=
  ⟨r.filename, replaceAllCell (analysisValidLoop r), replaceAllCell r.other⟩

/-- `_create_analysis_valid_column` (lines 92-99) over the dataframe. -/
def create_analysis_valid_column (rows : List FullRow) : List AnalysisOutRow :=
  rows.map create_analysis_valid_row

/-- The classification C5 states, written from the spec's words: the
" and "-joined names of the non-null categories in the canonical
category order, collapsing to "all" when every category is present and
to "None" when none is. -/
def specAnalysisValid (r : FullRow) : String :=
  let present := JSON_DATA_FIELDS.filter (colPresent r)
  if present.length = JSON_DATA_FIELDS.length then "all"
  else if present = [] then "None"
  else String.intercalate " and " present

/-! ### Taxonomy Enricher (`AddTaxonomyModifier.modify`, lines 19-40)

The decisive aspect for C6 is which columns the main table ends up
with, so dataframes are modelled here at the level of their column-name
lists.  `TaxonomicParser` is not under `src/`; per spec section 4.3 its
`create_file_matches` output is a table indexed by sample key whose
columns are the two per-tool taxonomy labels plus the `matches` column
that `modify` drops. -/

/-- pandas `left.merge(right, left_index=True, right_index=True, ...)`
at column level: the result has the left columns followed by the right
columns, and every column name occurring on both sides is suffixed with
the defaults `_x` (left) and `_y` (right). -/
def mergeColumns (left right : List String) : List String :=
  (left.map (fun c => if c ∈ right then c ++ "_x" else c)) ++
  (right.map (fun c => if c ∈ left then c ++ "_y" else c))

/-- Modelled from the spec: the columns of
`TaxonomicParser.create_file_matches()` (`TaxonomicParser` is not under
`src/`): the two per-tool taxonomy label columns and `matches`. -/
def create_file_matches_columns : List String :=
  ["rgi_kmer.taxonomy_label", "lmat.taxonomy_label", "matches"]

/-- `modify` renames the label columns
(`lmat.taxonomy_label -> lmat_taxonomy`,
`rgi_kmer.taxonomy_label -> rgi_kmer_taxonomy`, lines 22-26). -/
def renameTaxonomyColumn (c : String) : String :=
  if c = "lmat.taxonomy_label" then "lmat_taxonomy"
  else if c = "rgi_kmer.taxonomy_label" then "rgi_kmer_taxonomy"
  else c

/-- The columns of `matches_df` inside `modify` after the rename and
after `drop(columns=['matches'])` (line 27). -/
def matchesColumns : List String :=
  (create_file_matches_columns.map renameTaxonomyColumn).filter (fun c => c ≠ "matches")

/-- `AddTaxonomyModifier.modify` at the level of main-table columns
(line 28): `data.main_df.merge(matches_df, left_index=True,
right_index=True, how='left')`.  The four other tables are copied
unchanged, so repeated application always merges the same
`matchesColumns` onto the previous result. -/
def modifyMainColumns (mainCols : List String) : List String :=
  mergeColumns mainCols matchesColumns

/-! ### Supporting lemmas about the selection operations -/

theorem RGIParser.files_of_select_by_files (p : RGIParser) (s : Finset String) :
    (p.select_by_files s).files = p.files ∩ s :=
  keySet_locKey RgiRow.filename s p.df_rgi

theorem CardLiveData.files_select_from_rgi_index (d : CardLiveData) (p : RGIParser) :
    (d.select_from_rgi_index p).files = d.files ∩ p.files :=
  keySet_locKey MainRow.filename p.files d.main_df

theorem CardLiveData.files_select_by_files (d : CardLiveData) (K : Finset String)
    (hwf : d.rgi_index.files = d.files) :
    (d.select_by_files K).files = d.files ∩ K := by
  have h1 : (d.rgi_index.select_by_files K).files = d.files ∩ K := by
    rw [RGIParser.files_of_select_by_files, hwf]
  calc (d.select_by_files K).files
      = d.files ∩ (d.rgi_index.select_by_files K).files :=
        d.files_select_from_rgi_index _
    _ = d.files ∩ (d.files ∩ K) := by rw [h1]
    _ = d.files ∩ K := by rw [← Finset.inter_assoc, Finset.inter_self]

theorem CardLiveData.wf_select_from_rgi_index (d : CardLiveData) (p : RGIParser)
    (hwf : d.WellFormed) (hp : p.files ⊆ d.files) :
    (d.select_from_rgi_index p).WellFormed := by
  obtain ⟨h1, h2, h3, h4⟩ := hwf
  have hfiles : (d.select_from_rgi_index p).files = p.files := by
    rw [d.files_select_from_rgi_index p, Finset.inter_eq_right.mpr hp]
  refine ⟨?_, ?_, ?_, ?_⟩ <;> rw [hfiles]
  · rfl
  · show keySet KRow.filename (locKey KRow.filename p.files d.rgi_kmer_df) = p.files
    rw [keySet_locKey, h2, Finset.inter_eq_right.mpr hp]
  · show keySet KRow.filename (locKey KRow.filename p.files d.lmat_df) = p.files
    rw [keySet_locKey, h3, Finset.inter_eq_right.mpr hp]
  · show keySet KRow.filename (locKey KRow.filename p.files d.mlst_df) = p.files
    rw [keySet_locKey, h4, Finset.inter_eq_right.mpr hp]

theorem CardLiveData.wf_select_by_files (d : CardLiveData) (K : Finset String)
    (hwf : d.WellFormed) : (d.select_by_files K).WellFormed := by
  apply d.wf_select_from_rgi_index _ hwf
  rw [RGIParser.files_of_select_by_files, hwf.1]
  exact Finset.inter_subset_left

theorem CardLiveData.wf_select_by_time (d : CardLiveData) (tstart tend : Int)
    (hwf : d.WellFormed) : (d.select_by_time tstart tend).WellFormed :=
  d.wf_select_by_files _ hwf

theorem RGIParser.select_files_subset (p : RGIParser) (b : String) (values : List String)
    (p' : RGIParser) (h : p.select b values = Except.ok p') : p'.files ⊆ p.files := by
  unfold RGIParser.select at h
  split_ifs at h with h1 h2 h3 h4
  · rw [Except.ok.injEq] at h
    subst h
    exact Finset.Subset.refl _
  · rw [Except.ok.injEq] at h
    subst h
    exact keySet_filter_subset _ _ _
  · rw [Except.ok.injEq] at h
    subst h
    exact keySet_filter_subset _ _ _
  · rw [Except.ok.injEq] at h
    subst h
    exact keySet_filter_subset _ _ _

theorem CardLiveData.wf_select (d : CardLiveData) (table b : String)
    (tstart tend : Int) (values : List String) (d' : CardLiveData)
    (hwf : d.WellFormed) (h : d.select table b tstart tend values = Except.ok d') :
    d'.WellFormed := by
  unfold CardLiveData.select at h
  split_ifs at h with h1 h2 h3
  · rw [Except.ok.injEq] at h
    subst h
    exact d.wf_select_by_time _ _ hwf
  · cases hsel : d.rgi_index.select b values with
    | error e =>
        rw [hsel] at h
        exact absurd h (by simp [Except.map])
    | ok p =>
        rw [hsel] at h
        simp only [Except.map, Except.ok.injEq] at h
        subst h
        apply d.wf_select_from_rgi_index p hwf
        have hsub := RGIParser.select_files_subset d.rgi_index b values p hsel
        rw [hwf.1] at hsub
        exact hsub

/-- A small concrete well-formed dataset used as witness input: two
samples, one RGI hit row, one auxiliary row per table and sample. -/
def sampleData : CardLiveData :=
  ⟨[⟨"file1", 0, 10⟩, ⟨"file2", 5, 3⟩],
   ⟨[⟨"file1", "Perfect", ["fluoroquinolone"], "X"⟩,
     ⟨"file2", "Strict", ["betalactam"], "Y"⟩]⟩,
   [⟨"file1", "k1"⟩, ⟨"file2", "k2"⟩],
   [⟨"file1", "l1"⟩, ⟨"file2", "l2"⟩],
   [⟨"file1", "m1"⟩, ⟨"file2", "m2"⟩]⟩

/-! ### Claim theorems -/

/-- C1 (code bug): with an existing dataset the refresher can never
reload, whatever the directory holds.  `set(input_files)` holds `Path`
objects while `existing_data.files()` holds basename strings, and a
`Path` never equals a `str`, so
`set(input_files).intersection(existing_files)` is always empty, the
`== 0` test always succeeds, and `update_data` returns the existing
data unchanged.  When no new files exist this conforms to the claim
(no file is read), but when newly-appeared files exist the full reload
the claim — and the code's own docstring ("otherwise a new data object
with additional data") and comment ("If no new files have been
found") — requires never happens. -/
theorem update_data_with_existing_never_reloads (dir : String) (names : List String)
    (existing : Finset String) :
    update_data dir names (some existing) = UpdateResult.unchanged := by
  have h : (((names.map (PyVal.path dir)).toFinset ∩ existing.image PyVal.str).card = 0) := by
    rw [Finset.card_eq_zero, Finset.eq_empty_iff_forall_not_mem]
    intro v hv
    rw [Finset.mem_inter] at hv
    obtain ⟨h1, h2⟩ := hv
    rw [List.mem_toFinset, List.mem_map] at h1
    obtain ⟨n, _, rfl⟩ := h1
    rw [Finset.mem_image] at h2
    obtain ⟨s, _, hs⟩ := h2
    exact PyVal.noConfusion hs
  simp only [update_data, update_data_with_existing, GlobGen.consume, if_pos h]

/-- C8: whenever the existing-data case of `update_data` (lines 37-44)
takes the reload arm (the intersection check is non-zero), the
`read_data` call iterates the same glob generator that
`set(input_files)` already consumed, so it reads zero input files
instead of re-reading the directory's files.  (The composed
`update_data` never reaches this arm, because the intersection always
compares `Path` objects against strings — see the C1 theorem; the data
flow of the arm itself is as the claim states.) -/
theorem update_data_reload_reads_no_files (g : GlobGen) (existing : Finset PyVal)
    (h : ¬(g.remaining.toFinset ∩ existing).card = 0) :
    update_data_with_existing g existing = UpdateResult.reloaded [] := by
  simp only [update_data_with_existing, GlobGen.consume, read_data_files, if_neg h]

/-- C8 witness: a concrete reload-arm call reading zero files. -/
theorem update_data_reload_reads_no_files_witness :
    ¬(((⟨[PyVal.path "data" "f1"]⟩ : GlobGen).remaining.toFinset ∩
        {PyVal.path "data" "f1"}).card = 0) ∧
    update_data_with_existing ⟨[PyVal.path "data" "f1"]⟩ {PyVal.path "data" "f1"} =
      UpdateResult.reloaded [] :=
  ⟨by decide,
   update_data_reload_reads_no_files ⟨[PyVal.path "data" "f1"]⟩
     {PyVal.path "data" "f1"} (by decide)⟩

/-- C9: `select` with any `(table, by)` combination other than
`(main, time)` or `table = rgi` raises (returns an error and no
dataset); this covers `table = main` with `by ≠ time` and any table
outside `{main, rgi}`. -/
theorem select_unknown_selector_errors (d : CardLiveData) (table b : String)
    (tstart tend : Int) (values : List String)
    (hmain : ¬(table = "main" ∧ b = "time")) (hrgi : table ≠ "rgi") :
    ∃ msg, d.select table b tstart tend values = Except.error msg := by
  unfold CardLiveData.select
  by_cases ht : table = "main"
  · have hb : ¬b = "time" := fun hb => hmain ⟨ht, hb⟩
    rw [if_pos ht, if_neg hb]
    exact ⟨_, rfl⟩
  · rw [if_neg ht, if_neg hrgi]
    exact ⟨_, rfl⟩

/-- C9 witness: `select(table='main', by='bogus')` errors. -/
theorem select_unknown_selector_errors_witness :
    ¬("main" = "main" ∧ "bogus" = "time") ∧
    ∃ msg, sampleData.select "main" "bogus" 0 0 [] = Except.error msg :=
  ⟨by decide,
   select_unknown_selector_errors sampleData "main" "bogus" 0 0 []
     (by decide) (by decide)⟩

/-- C4: `replace_antarctica_with_na` maps the main table row-for-row —
keys and timestamps unchanged; a row with geo code 10 and timestamp
strictly before the threshold gets code -10; a row with code 10 at or
after the threshold keeps code 10; a row with any other code keeps its
code — and returns the four other tables unchanged.  The embedding is
pure, so the source dataset itself is unmodified by construction. -/
theorem replace_antarctica_with_na_spec (d : CardLiveData) (t : Int) :
    List.Forall₂
      (fun r r' : MainRow =>
        r'.filename = r.filename ∧ r'.timestamp = r.timestamp ∧
        (r.geo_area_code = 10 → r.timestamp < t → r'.geo_area_code = -10) ∧
        (r.geo_area_code = 10 → t ≤ r.timestamp → r'.geo_area_code = 10) ∧
        (r.geo_area_code ≠ 10 → r'.geo_area_code = r.geo_area_code))
      d.main_df (d.replace_antarctica_with_na t).main_df ∧
    (d.replace_antarctica_with_na t).rgi_df = d.rgi_df ∧
    (d.replace_antarctica_with_na t).rgi_kmer_df = d.rgi_kmer_df ∧
    (d.replace_antarctica_with_na t).lmat_df = d.lmat_df ∧
    (d.replace_antarctica_with_na t).mlst_df = d.mlst_df := by
  refine ⟨?_, rfl, rfl, rfl, rfl⟩
  show List.Forall₂ _ d.main_df (d.main_df.map _)
  rw [List.forall₂_map_right_iff, List.forall₂_same]
  intro r _
  by_cases hc : r.geo_area_code = 10 ∧ r.timestamp < t
  · rw [if_pos hc]
    exact ⟨rfl, rfl, fun _ _ => rfl,
      fun _ hge => absurd hc.2 (not_lt.mpr hge),
      fun hne => absurd hc.1 hne⟩
  · rw [if_neg hc]
    exact ⟨rfl, rfl, fun h10 hlt => absurd ⟨h10, hlt⟩ hc,
      fun h10 _ => h10, fun _ => rfl⟩

/-- C5: the derived `analysis_valid` value is exactly the spec's
classification — "all" when all four categories hold non-null data,
"None" when none do, and otherwise the " and "-joined names of the
non-null categories in the fixed canonical order `rgi_main, rgi_kmer,
mlst, lmat`.  The loop iterates the constant `JSON_DATA_FIELDS`, so the
value depends only on the four per-category non-null flags — never on
the key order of the source JSON document. -/
theorem analysis_valid_spec (r : FullRow) :
    (create_analysis_valid_row r).analysis_valid = specAnalysisValid r := by
  obtain ⟨f, b1, b2, b3, b4, o⟩ := r
  cases b1 <;> cases b2 <;> cases b3 <;> cases b4 <;> rfl

/-- C10: the final `replace` collapsing the full joined string to "all"
is applied to the entire dataframe, so a sample whose value in any
other column equals `rgi_main and rgi_kmer and mlst and lmat` has that
value rewritten to "all" as well. -/
theorem replace_applies_to_whole_dataframe (r : FullRow)
    (h : r.other = "rgi_main and rgi_kmer and mlst and lmat") :
    (create_analysis_valid_row r).other = "all" := by
  show replaceAllCell r.other = "all"
  rw [h]
  rfl

/-- C10 witness: a concrete row whose other column holds the joined
string and comes out as "all". -/
theorem replace_applies_to_whole_dataframe_witness :
    (⟨"f", true, false, false, false,
        "rgi_main and rgi_kmer and mlst and lmat"⟩ : FullRow).other =
      "rgi_main and rgi_kmer and mlst and lmat" ∧
    (create_analysis_valid_row
        ⟨"f", true, false, false, false,
          "rgi_main and rgi_kmer and mlst and lmat"⟩).other = "all" :=
  ⟨rfl, replace_applies_to_whole_dataframe _ rfl⟩

/-- C2: for every well-formed dataset `D` and key set `K ⊆ D.files()`,
`D.select_by_files(K).files() = K ∩ D.files()`, and each of the five
tables of the result contains rows only for keys in that
intersection. -/
theorem select_by_files_files_inter (d : CardLiveData) (K : Finset String)
    (hwf : d.WellFormed) (hK : K ⊆ d.files) :
    (d.select_by_files K).files = K ∩ d.files ∧
    (∀ r ∈ (d.select_by_files K).main_df, r.filename ∈ K ∩ d.files) ∧
    (∀ r ∈ (d.select_by_files K).rgi_df, r.filename ∈ K ∩ d.files) ∧
    (∀ r ∈ (d.select_by_files K).rgi_kmer_df, r.filename ∈ K ∩ d.files) ∧
    (∀ r ∈ (d.select_by_files K).lmat_df, r.filename ∈ K ∩ d.files) ∧
    (∀ r ∈ (d.select_by_files K).mlst_df, r.filename ∈ K ∩ d.files) := by
  have hpfiles : (d.rgi_index.select_by_files K).files = d.files ∩ K := by
    rw [RGIParser.files_of_select_by_files, hwf.1]
  refine ⟨?_, ?_, ?_, ?_, ?_, ?_⟩
  · rw [d.files_select_by_files K hwf.1, Finset.inter_comm]
  · intro r hr
    have h := (mem_locKey.mp hr).2
    rw [hpfiles, Finset.inter_comm] at h
    exact h
  · intro r hr
    obtain ⟨hmem, hinK⟩ := mem_locKey.mp hr
    have hfiles : RgiRow.filename r ∈ d.files := by
      rw [← hwf.1]
      exact mem_keySet.mpr ⟨r, hmem, rfl⟩
    exact Finset.mem_inter.mpr ⟨hinK, hfiles⟩
  · intro r hr
    have h := (mem_locKey.mp hr).2
    rw [hpfiles, Finset.inter_comm] at h
    exact h
  · intro r hr
    have h := (mem_locKey.mp hr).2
    rw [hpfiles, Finset.inter_comm] at h
    exact h
  · intro r hr
    have h := (mem_locKey.mp hr).2
    rw [hpfiles, Finset.inter_comm] at h
    exact h

/-- C2 witness: selection of `sampleData` by `{file1}`. -/
theorem select_by_files_files_inter_witness :
    sampleData.WellFormed ∧ ({"file1"} : Finset String) ⊆ sampleData.files ∧
    (sampleData.select_by_files {"file1"}).files = {"file1"} ∩ sampleData.files :=
  ⟨by decide, by decide,
   (select_by_files_files_inter sampleData {"file1"} (by decide) (by decide)).1⟩

/-- C3: every selection operation narrows all five tables through the
one shared key filter, so the sample-record table and the four
per-category tables of the result reference exactly the same key set
(`WellFormed` states that the four per-category key sets all equal
`files()`, the key set of the sample-record table). -/
theorem selection_same_key_sets (d : CardLiveData) (hwf : d.WellFormed) :
    (∀ K : Finset String, (d.select_by_files K).WellFormed) ∧
    (∀ tstart tend : Int, (d.select_by_time tstart tend).WellFormed) ∧
    (∀ p : RGIParser, p.files ⊆ d.files → (d.select_from_rgi_index p).WellFormed) ∧
    (∀ (table b : String) (tstart tend : Int) (values : List String) (d' : CardLiveData),
        d.select table b tstart tend values = Except.ok d' → d'.WellFormed) :=
  ⟨fun K => d.wf_select_by_files K hwf,
   fun tstart tend => d.wf_select_by_time tstart tend hwf,
   fun p hp => d.wf_select_from_rgi_index p hwf hp,
   fun table b tstart tend values d' h =>
     d.wf_select table b tstart tend values d' hwf h⟩

/-- C3 witness: a concrete selection keeps all five key sets equal. -/
theorem selection_same_key_sets_witness :
    sampleData.WellFormed ∧ (sampleData.select_by_files {"file1"}).WellFormed :=
  ⟨by decide, (selection_same_key_sets sampleData (by decide)).1 {"file1"}⟩

/-- C7: selecting a well-formed dataset by its own file set is the
identity: `D.select_by_files(D.files()) = D`. -/
theorem select_by_files_all_files_eq_self (d : CardLiveData) (hwf : d.WellFormed) :
    d.select_by_files d.files = d := by
  obtain ⟨h1, h2, h3, h4⟩ := hwf
  have hp : d.rgi_index.select_by_files d.files = d.rgi_index := by
    show (⟨locKey RgiRow.filename d.files d.rgi_index.df_rgi⟩ : RGIParser) = d.rgi_index
    rw [locKey_eq_self (fun x hx => h1 ▸ hx)]
  unfold CardLiveData.select_by_files CardLiveData.select_from_rgi_index
  rw [hp, h1]
  rw [locKey_eq_self (Finset.Subset.refl d.files),
      locKey_eq_self (fun x hx => h2 ▸ hx),
      locKey_eq_self (fun x hx => h3 ▸ hx),
      locKey_eq_self (fun x hx => h4 ▸ hx)]

/-- C7 witness. -/
theorem select_by_files_all_files_eq_self_witness :
    sampleData.WellFormed ∧
    sampleData.select_by_files sampleData.files = sampleData :=
  ⟨by decide, select_by_files_all_files_eq_self sampleData (by decide)⟩

/-- C6 counterexample: on a main table with columns
`timestamp, geo_area_code`, applying `modify` twice does not reproduce
the columns of a single application — the second `merge` suffixes the
colliding taxonomy columns instead of keeping the same two columns. -/
theorem modify_not_idempotent_cex :
    modifyMainColumns (modifyMainColumns ["timestamp", "geo_area_code"]) ≠
      modifyMainColumns ["timestamp", "geo_area_code"] := by decide

/-- C6 amended: one application of `modify` appends exactly the two
taxonomy label columns, but a second application merges them against
the already-present columns of the same names, so pandas suffixes both
sides and the result carries the four columns `rgi_kmer_taxonomy_x`,
`lmat_taxonomy_x`, `rgi_kmer_taxonomy_y`, `lmat_taxonomy_y` instead of
the two unsuffixed ones: the enricher is not idempotent. -/
theorem modify_twice_suffixes_columns (cols : List String)
    (h1 : "rgi_kmer_taxonomy" ∉ cols) (h2 : "lmat_taxonomy" ∉ cols) :
    modifyMainColumns cols = cols ++ ["rgi_kmer_taxonomy", "lmat_taxonomy"] ∧
    modifyMainColumns (modifyMainColumns cols) =
      cols ++ ["rgi_kmer_taxonomy_x", "lmat_taxonomy_x",
               "rgi_kmer_taxonomy_y", "lmat_taxonomy_y"] := by
  have hmatch : matchesColumns = ["rgi_kmer_taxonomy", "lmat_taxonomy"] := rfl
  have hid : ∀ c ∈ cols, (if c ∈ matchesColumns then c ++ "_x" else c) = c := by
    intro c hc
    rw [if_neg]
    rw [hmatch]
    intro hmem
    rcases List.mem_cons.mp hmem with h | h
    · exact h1 (h ▸ hc)
    · rcases List.mem_cons.mp h with h' | h'
      · exact h2 (h' ▸ hc)
      · exact absurd h' (List.not_mem_nil c)
  have honce : modifyMainColumns cols = cols ++ ["rgi_kmer_taxonomy", "lmat_taxonomy"] := by
    unfold modifyMainColumns mergeColumns
    rw [hmatch]
    rw [show cols.map (fun c =>
          if c ∈ (["rgi_kmer_taxonomy", "lmat_taxonomy"] : List String)
          then c ++ "_x" else c) = cols from
        (List.map_congr_left (by rw [← hmatch]; exact hid)).trans (List.map_id cols)]
    congr 1
    show [if "rgi_kmer_taxonomy" ∈ cols then "rgi_kmer_taxonomy" ++ "_y"
            else "rgi_kmer_taxonomy",
          if "lmat_taxonomy" ∈ cols then "lmat_taxonomy" ++ "_y"
            else "lmat_taxonomy"] = _
    rw [if_neg h1, if_neg h2]
  refine ⟨honce, ?_⟩
  rw [honce]
  unfold modifyMainColumns mergeColumns
  rw [hmatch]
  rw [List.map_append]
  rw [show cols.map (fun c =>
        if c ∈ (["rgi_kmer_taxonomy", "lmat_taxonomy"] : List String)
        then c ++ "_x" else c) = cols from
      (List.map_congr_left (by rw [← hmatch]; exact hid)).trans (List.map_id cols)]
  simp only [List.map_cons, List.map_nil]
  rw [if_pos (by decide : ("rgi_kmer_taxonomy" : String) ∈
        (["rgi_kmer_taxonomy", "lmat_taxonomy"] : List String)),
      if_pos (by decide : ("lmat_taxonomy" : String) ∈
        (["rgi_kmer_taxonomy", "lmat_taxonomy"] : List String))]
  rw [if_pos, if_pos]
  · simp
  · simp
  · simp

/-- C6 amended-claim witness. -/
theorem modify_twice_suffixes_columns_witness :
    ("rgi_kmer_taxonomy" ∉ (["timestamp", "geo_area_code"] : List String)) ∧
    ("lmat_taxonomy" ∉ (["timestamp", "geo_area_code"] : List String)) ∧
    modifyMainColumns (modifyMainColumns ["timestamp", "geo_area_code"]) =
      ["timestamp", "geo_area_code"] ++
        ["rgi_kmer_taxonomy_x", "lmat_taxonomy_x",
         "rgi_kmer_taxonomy_y", "lmat_taxonomy_y"] :=
  ⟨by decide, by decide,
   (modify_twice_suffixes_columns ["timestamp", "geo_area_code"]
      (by decide) (by decide)).2⟩

end CardLive
